import Mathlib

/-!
# Verification of the DORA MCP server against its specification

A shallow embedding of `src/dora_mcp/server.py` (the package the test suite
imports) together with the relevant parts of the Python standard library it
uses (`urllib.parse.quote` / `urllib.parse.unquote`), and proofs of the
specified properties of the query builder and the transport adapter.

Python strings are modelled as lists of Unicode code points (`PyStr`);
percent-encoding works on the UTF-8 bytes of the string exactly as
`urllib.parse.quote` does.
-/

namespace DoraMCP

/-- A Python string, modelled as its list of Unicode code points. -/
abbrev PyStr := List Nat

/-- Transcription of a Python string literal: the code points of the
corresponding Lean string literal. -/
def pys (s : String) : PyStr := s.data.map Char.toNat

/-- A valid Unicode scalar value: the code points a Python `str` may contain
and still be UTF-8 encodable (no surrogates, below `0x110000`). -/
def isValidCodepoint (n : Nat) : Prop := n < 0xD800 ∨ (0xE000 ≤ n ∧ n < 0x110000)

instance (n : Nat) : Decidable (isValidCodepoint n) := by
  unfold isValidCodepoint; infer_instance

/-- UTF-8 encoding of one code point, the bytes of Python
`chr(n).encode("utf-8")`. -/
def utf8Encode (n : Nat) : List Nat :=
  if n < 0x80 then [n]
  else if n < 0x800 then [0xC0 + n / 64, 0x80 + n % 64]
  else if n < 0x10000 then [0xE0 + n / 4096, 0x80 + n / 64 % 64, 0x80 + n % 64]
  else [0xF0 + n / 262144, 0x80 + n / 4096 % 64, 0x80 + n / 64 % 64, 0x80 + n % 64]

/-- UTF-8 encoding of a whole string, Python `s.encode("utf-8")`. -/
def utf8Bytes (s : PyStr) : List Nat := s.flatMap utf8Encode

/-- The bytes `urllib.parse.quote` never escapes (`_ALWAYS_SAFE`):
ASCII letters, digits, and `_.-~`. -/
def alwaysSafeByte (b : Nat) : Bool :=
  (65 ≤ b && b ≤ 90) || (97 ≤ b && b ≤ 122) || (48 ≤ b && b ≤ 57) ||
    b == 95 || b == 46 || b == 45 || b == 126

/-- Upper-case hexadecimal digit of a value below 16, as `quote` emits it. -/
def hexDigit (n : Nat) : Nat := if n < 10 then 48 + n else 55 + n

/-- The `%XX` escape of one byte. -/
def pctEncode (b : Nat) : List Nat := [37, hexDigit (b / 16), hexDigit (b % 16)]

/-- `urllib.parse.quote(s, safe)`: UTF-8 encode, then keep the always-safe
bytes and the bytes of `safe`, and `%XX`-escape every other byte. -/
def quoteWith (safe : List Nat) (s : PyStr) : PyStr :=
  (utf8Bytes s).flatMap fun b =>
    if alwaysSafeByte b || b ∈ safe then [b] else pctEncode b

/-- `urllib.parse.quote(s)` with the default `safe="/"`, as the query builder
calls it. -/
def quote (s : PyStr) : PyStr := quoteWith [47] s

/-- The seven field-scoped sub-queries `f"field:({search_string})^weight"` of
`build_search_query` in `src/dora_mcp/server.py`. -/
def query_parts (search_string : PyStr) : List PyStr :=
  [ pys "mods_titleInfo_title_mt:(" ++ search_string ++ pys ")^5",
    pys "mods_abstract_ms:(" ++ search_string ++ pys ")^2",
    pys "dc.creator:(" ++ search_string ++ pys ")^2",
    pys "mods_extension_originalAuthorList_mt:(" ++ search_string ++ pys ")^2",
    pys "dc.contributor:(" ++ search_string ++ pys ")^1",
    pys "dc.type:(" ++ search_string ++ pys ")^1",
    pys "catch_all_MODS_mt:(" ++ search_string ++ pys ")^1" ]

/-- `build_search_query` from `src/dora_mcp/server.py`:
`"%20OR%20".join([quote(part) for part in query_parts])`. -/
def build_search_query (search_string : PyStr) : PyStr :=
  List.intercalate (pys "%20OR%20") ((query_parts search_string).map quote)

/-- One field-scoped clause as the specification words it: the sub-query
`field:(term)^weight`, percent-encoded independently, with the term
interpolated as-is. -/
def specClause (field : PyStr) (term : PyStr) (weight : Nat) : PyStr :=
  quote (field ++ pys ":(" ++ term ++ pys ")^" ++ pys (toString weight))

/-- A hexadecimal digit as `urllib.parse.unquote` accepts it
(`_hextobyte` is keyed by both upper- and lower-case pairs). -/
def isHexDigit (c : Nat) : Bool :=
  (48 ≤ c && c ≤ 57) || (65 ≤ c && c ≤ 70) || (97 ≤ c && c ≤ 102)

/-- Value of a hexadecimal digit code point. -/
def hexValue (c : Nat) : Nat :=
  if c ≤ 57 then c - 48 else if c ≤ 70 then c - 55 else c - 87

/-- `urllib.parse.unquote_to_bytes` on an ASCII string: every valid `%XX`
escape becomes the byte `XX`; a `%` not followed by two hexadecimal digits
stays literal, and scanning continues after it. -/
def unquoteToBytes : List Nat → List Nat
  | [] => []
  | b :: rest =>
    if b = 37 then
      match rest with
      | h1 :: h2 :: rest2 =>
        if isHexDigit h1 ∧ isHexDigit h2 then
          (hexValue h1 * 16 + hexValue h2) :: unquoteToBytes rest2
        else 37 :: unquoteToBytes (h1 :: h2 :: rest2)
      | short => 37 :: unquoteToBytes short
    else b :: unquoteToBytes rest
termination_by l => l.length
decreasing_by all_goals simp_all [List.length_cons] <;> omega

/-- A UTF-8 continuation byte, `0x80..0xBF`. -/
def isContByte (x : Nat) : Bool := 0x80 ≤ x && x < 0xC0

/-- UTF-8 decoding of a byte list, as `bytes.decode("utf-8", errors="replace")`
behaves on well-formed input; a malformed lead or continuation byte becomes
the replacement character `U+FFFD` (the exact resynchronisation on malformed
input is approximate, and never reached from `quote` output). -/
def utf8DecodeList : List Nat → List Nat
  | [] => []
  | b :: rest =>
    if b < 0x80 then b :: utf8DecodeList rest
    else if b < 0xC0 then 0xFFFD :: utf8DecodeList rest
    else if b < 0xE0 then
      if 1 ≤ rest.length ∧ isContByte (rest.getD 0 0) then
        ((b - 0xC0) * 64 + (rest.getD 0 0 - 0x80)) :: utf8DecodeList (rest.drop 1)
      else 0xFFFD :: utf8DecodeList rest
    else if b < 0xF0 then
      if 2 ≤ rest.length ∧ isContByte (rest.getD 0 0) ∧ isContByte (rest.getD 1 0) then
        ((b - 0xE0) * 4096 + (rest.getD 0 0 - 0x80) * 64 + (rest.getD 1 0 - 0x80))
          :: utf8DecodeList (rest.drop 2)
      else 0xFFFD :: utf8DecodeList rest
    else
      if 3 ≤ rest.length ∧ isContByte (rest.getD 0 0) ∧ isContByte (rest.getD 1 0) ∧
          isContByte (rest.getD 2 0) then
        ((b - 0xF0) * 262144 + (rest.getD 0 0 - 0x80) * 4096 + (rest.getD 1 0 - 0x80) * 64 +
            (rest.getD 2 0 - 0x80)) :: utf8DecodeList (rest.drop 3)
      else 0xFFFD :: utf8DecodeList rest
termination_by l => l.length
decreasing_by all_goals simp [List.length_drop] <;> omega

/-- `urllib.parse.unquote(s)` (encoding `utf-8`) on an ASCII string such as
the output of `quote`: replace the `%XX` escapes by their bytes and decode
the resulting byte string as UTF-8. -/
def unquote (s : PyStr) : PyStr := utf8DecodeList (unquoteToBytes s)

lemma utf8Encode_byte_lt {n : Nat} (hn : n < 0x110000) : ∀ b ∈ utf8Encode n, b < 256 := by
  intro b hb
  unfold utf8Encode at hb
  split_ifs at hb <;> simp only [List.mem_cons, List.not_mem_nil, or_false] at hb <;> omega

lemma isHexDigit_hexDigit {m : Nat} (h : m < 16) : isHexDigit (hexDigit m) = true := by
  unfold isHexDigit hexDigit
  split_ifs <;> simp <;> omega

lemma hexValue_hexDigit {m : Nat} (h : m < 16) : hexValue (hexDigit m) = m := by
  unfold hexValue hexDigit
  split_ifs <;> omega

lemma unquoteToBytes_cons_ne37 {b : Nat} (l : List Nat) (hb : b ≠ 37) :
    unquoteToBytes (b :: l) = b :: unquoteToBytes l := by
  rw [unquoteToBytes.eq_def]
  simp [hb]

lemma unquoteToBytes_pct {h1 h2 : Nat} (l : List Nat)
    (hh1 : isHexDigit h1 = true) (hh2 : isHexDigit h2 = true) :
    unquoteToBytes (37 :: h1 :: h2 :: l) =
      (hexValue h1 * 16 + hexValue h2) :: unquoteToBytes l := by
  rw [unquoteToBytes.eq_def]
  simp [hh1, hh2]

/-- Decoding the escapes of `quote` output recovers the UTF-8 bytes. -/
lemma unquoteToBytes_quoteBytes (bs : List Nat) (h : ∀ b ∈ bs, b < 256) :
    unquoteToBytes (bs.flatMap fun b =>
      if alwaysSafeByte b || b ∈ [47] then [b] else pctEncode b) = bs := by
  induction bs with
  | nil => rw [unquoteToBytes.eq_def]; rfl
  | cons b bs ih =>
    have hb : b < 256 := h b (by simp)
    have hrest := ih fun x hx => h x (by simp [hx])
    rw [List.flatMap_cons]
    by_cases hs : alwaysSafeByte b || b ∈ [47]
    · rw [if_pos hs, List.cons_append, List.nil_append,
        unquoteToBytes_cons_ne37 _ (by rintro rfl; revert hs; decide), hrest]
    · rw [if_neg hs]
      show unquoteToBytes (37 :: hexDigit (b / 16) :: hexDigit (b % 16) :: (bs.flatMap fun b =>
        if alwaysSafeByte b || b ∈ [47] then [b] else pctEncode b)) = _
      rw [unquoteToBytes_pct _ (isHexDigit_hexDigit (by omega)) (isHexDigit_hexDigit (by omega)),
        hexValue_hexDigit (by omega), hexValue_hexDigit (by omega), hrest]
      congr 1
      omega

lemma utf8DecodeList_cons_ascii (b : Nat) (l : List Nat) (h : b < 0x80) :
    utf8DecodeList (b :: l) = b :: utf8DecodeList l := by
  rw [utf8DecodeList.eq_def]
  simp [h]

lemma utf8DecodeList_cons2 (b b1 : Nat) (l : List Nat)
    (hb : 0xC0 ≤ b) (hb' : b < 0xE0) (h1 : 0x80 ≤ b1) (h1' : b1 < 0xC0) :
    utf8DecodeList (b :: b1 :: l) =
      ((b - 0xC0) * 64 + (b1 - 0x80)) :: utf8DecodeList l := by
  have A : ¬ b < 0x80 := by omega
  have B : ¬ b < 0xC0 := by omega
  rw [utf8DecodeList.eq_def]
  simp [A, B, hb', isContByte, h1, h1']

lemma utf8DecodeList_cons3 (b b1 b2 : Nat) (l : List Nat)
    (hb : 0xE0 ≤ b) (hb' : b < 0xF0)
    (h1 : 0x80 ≤ b1) (h1' : b1 < 0xC0) (h2 : 0x80 ≤ b2) (h2' : b2 < 0xC0) :
    utf8DecodeList (b :: b1 :: b2 :: l) =
      ((b - 0xE0) * 4096 + (b1 - 0x80) * 64 + (b2 - 0x80)) :: utf8DecodeList l := by
  have A : ¬ b < 0x80 := by omega
  have B : ¬ b < 0xC0 := by omega
  have C : ¬ b < 0xE0 := by omega
  rw [utf8DecodeList.eq_def]
  simp [A, B, C, hb', isContByte, h1, h1', h2, h2']

lemma utf8DecodeList_cons4 (b b1 b2 b3 : Nat) (l : List Nat)
    (hb : 0xF0 ≤ b)
    (h1 : 0x80 ≤ b1) (h1' : b1 < 0xC0) (h2 : 0x80 ≤ b2) (h2' : b2 < 0xC0)
    (h3 : 0x80 ≤ b3) (h3' : b3 < 0xC0) :
    utf8DecodeList (b :: b1 :: b2 :: b3 :: l) =
      ((b - 0xF0) * 262144 + (b1 - 0x80) * 4096 + (b2 - 0x80) * 64 + (b3 - 0x80))
        :: utf8DecodeList l := by
  have A : ¬ b < 0x80 := by omega
  have B : ¬ b < 0xC0 := by omega
  have C : ¬ b < 0xE0 := by omega
  have D : ¬ b < 0xF0 := by omega
  rw [utf8DecodeList.eq_def]
  simp [A, B, C, D, isContByte, h1, h1', h2, h2', h3, h3']

set_option maxRecDepth 4000 in
/-- Decoding the UTF-8 encoding of one code point consumes exactly its bytes. -/
lemma utf8DecodeList_encode_append {n : Nat} (hn : n < 0x110000) (l : List Nat) :
    utf8DecodeList (utf8Encode n ++ l) = n :: utf8DecodeList l := by
  unfold utf8Encode
  split_ifs with h1 h2 h3
  · rw [List.cons_append, List.nil_append, utf8DecodeList_cons_ascii n _ h1]
  · rw [show ([0xC0 + n / 64, 0x80 + n % 64] : List Nat) ++ l =
      (0xC0 + n / 64) :: (0x80 + n % 64) :: l from rfl]
    rw [utf8DecodeList_cons2 (0xC0 + n / 64) (0x80 + n % 64) l (by omega) (by omega) (by omega) (by omega)]
    congr 1
    omega
  · rw [show ([0xE0 + n / 4096, 0x80 + n / 64 % 64, 0x80 + n % 64] : List Nat) ++ l =
      (0xE0 + n / 4096) :: (0x80 + n / 64 % 64) :: (0x80 + n % 64) :: l from rfl]
    rw [utf8DecodeList_cons3 (0xE0 + n / 4096) (0x80 + n / 64 % 64) (0x80 + n % 64) l
      (by omega) (by omega) (by omega) (by omega) (by omega) (by omega)]
    congr 1
    omega
  · rw [show ([0xF0 + n / 262144, 0x80 + n / 4096 % 64, 0x80 + n / 64 % 64, 0x80 + n % 64] :
      List Nat) ++ l =
      (0xF0 + n / 262144) :: (0x80 + n / 4096 % 64) :: (0x80 + n / 64 % 64) :: (0x80 + n % 64)
        :: l from rfl]
    rw [utf8DecodeList_cons4 (0xF0 + n / 262144) (0x80 + n / 4096 % 64) (0x80 + n / 64 % 64)
      (0x80 + n % 64) l (by omega) (by omega) (by omega) (by omega) (by omega) (by omega)
      (by omega)]
    congr 1
    omega

lemma utf8DecodeList_utf8Bytes (s : PyStr) (h : ∀ c ∈ s, c < 0x110000) :
    utf8DecodeList (utf8Bytes s) = s := by
  induction s with
  | nil => rw [utf8DecodeList.eq_def]; rfl
  | cons c cs ih =>
    rw [utf8Bytes, List.flatMap_cons,
      utf8DecodeList_encode_append (h c (by simp)),
      show (cs.flatMap utf8Encode) = utf8Bytes cs from rfl,
      ih fun x hx => h x (by simp [hx])]

lemma valid_lt {n : Nat} (h : isValidCodepoint n) : n < 0x110000 := by
  rcases h with h | ⟨_, h⟩ <;> omega

/-- `unquote` is a left inverse of `quote` on every UTF-8 encodable string. -/
lemma unquote_quote (s : PyStr) (h : ∀ c ∈ s, isValidCodepoint c) :
    unquote (quote s) = s := by
  have hlt : ∀ c ∈ s, c < 0x110000 := fun c hc => valid_lt (h c hc)
  have hbytes : ∀ b ∈ utf8Bytes s, b < 256 := by
    intro b hb
    simp only [utf8Bytes, List.mem_flatMap] at hb
    obtain ⟨c, hc, hbc⟩ := hb
    exact utf8Encode_byte_lt (hlt c hc) b hbc
  rw [unquote, quote, quoteWith, unquoteToBytes_quoteBytes _ hbytes,
    utf8DecodeList_utf8Bytes _ hlt]

lemma valid_append {a b : PyStr} (ha : ∀ c ∈ a, isValidCodepoint c)
    (hb : ∀ c ∈ b, isValidCodepoint c) : ∀ c ∈ a ++ b, isValidCodepoint c := by
  intro c hc
  rcases List.mem_append.mp hc with h | h
  exacts [ha c h, hb c h]

/-- Every code point of a transcribed literal is a valid scalar value. -/
lemma pys_valid (s : String) : ∀ c ∈ pys s, isValidCodepoint c := by
  intro c hc
  simp only [pys, List.mem_map] at hc
  obtain ⟨ch, _, rfl⟩ := hc
  have h := ch.valid
  unfold isValidCodepoint
  simp only [Char.toNat]
  rcases h with h | ⟨h1, h2⟩
  · exact Or.inl h
  · exact Or.inr ⟨by omega, h2⟩

/-- C1: for every search term, `build_search_query` returns the
`%20OR%20`-joined union of exactly seven field-scoped sub-queries
`field:(term)^weight` over the fields title, abstract, creator,
alt-author-list, contributor, type and catch-all with weights
5, 2, 2, 2, 1, 1, 1, each sub-query percent-encoded independently before
joining (the joiner being the percent-encoding of the literal token
`" OR "`), with the term interpolated as-is. -/
theorem build_search_query_is_weighted_union (s : PyStr) :
    build_search_query s =
      List.intercalate (pys "%20OR%20")
        [ specClause (pys "mods_titleInfo_title_mt") s 5,
          specClause (pys "mods_abstract_ms") s 2,
          specClause (pys "dc.creator") s 2,
          specClause (pys "mods_extension_originalAuthorList_mt") s 2,
          specClause (pys "dc.contributor") s 1,
          specClause (pys "dc.type") s 1,
          specClause (pys "catch_all_MODS_mt") s 1 ] ∧
    pys "%20OR%20" = quote (pys " OR ") := by
  constructor
  · have h1 : pys "mods_titleInfo_title_mt:(" = pys "mods_titleInfo_title_mt" ++ pys ":(" := by
      decide
    have h2 : pys "mods_abstract_ms:(" = pys "mods_abstract_ms" ++ pys ":(" := by decide
    have h3 : pys "dc.creator:(" = pys "dc.creator" ++ pys ":(" := by decide
    have h4 : pys "mods_extension_originalAuthorList_mt:(" =
        pys "mods_extension_originalAuthorList_mt" ++ pys ":(" := by decide
    have h5 : pys "dc.contributor:(" = pys "dc.contributor" ++ pys ":(" := by decide
    have h6 : pys "dc.type:(" = pys "dc.type" ++ pys ":(" := by decide
    have h7 : pys "catch_all_MODS_mt:(" = pys "catch_all_MODS_mt" ++ pys ":(" := by decide
    have w5 : pys ")^5" = pys ")^" ++ pys (toString (5 : Nat)) := by decide
    have w2 : pys ")^2" = pys ")^" ++ pys (toString (2 : Nat)) := by decide
    have w1 : pys ")^1" = pys ")^" ++ pys (toString (1 : Nat)) := by decide
    simp only [build_search_query, query_parts, specClause, h1, h2, h3, h4, h5, h6, h7,
      w5, w2, w1, List.map_cons, List.map_nil, List.append_assoc]
  · decide

/-- C2: for every UTF-8 encodable search term, percent-decoding each of the
seven independently encoded field clauses of `build_search_query` recovers
the clause, and with it the original term, which sits inside the clause:
decoding is a left inverse of the encoding applied to each clause. -/
theorem query_parts_percent_roundtrip (term : PyStr)
    (h : ∀ c ∈ term, isValidCodepoint c) :
    ∀ p ∈ query_parts term, unquote (quote p) = p ∧ term <:+: p := by
  intro p hp
  simp only [query_parts, List.mem_cons, List.not_mem_nil, or_false] at hp
  have hvalid : ∀ c ∈ p, isValidCodepoint c := by
    rcases hp with rfl | rfl | rfl | rfl | rfl | rfl | rfl <;>
      exact valid_append (valid_append (pys_valid _) h) (pys_valid _)
  refine ⟨unquote_quote p hvalid, ?_⟩
  rcases hp with rfl | rfl | rfl | rfl | rfl | rfl | rfl <;>
    exact ⟨pys _, pys _, rfl⟩

set_option maxRecDepth 40000 in
/-- Witness for C2 at the concrete term `"manfred heuberger"` and its title
clause. -/
theorem query_parts_percent_roundtrip_witness :
    (pys "mods_titleInfo_title_mt:(" ++ pys "manfred heuberger" ++ pys ")^5") ∈
        query_parts (pys "manfred heuberger") ∧
    unquote (quote (pys "mods_titleInfo_title_mt:(" ++ pys "manfred heuberger" ++ pys ")^5")) =
        pys "mods_titleInfo_title_mt:(" ++ pys "manfred heuberger" ++ pys ")^5" ∧
    pys "manfred heuberger" <:+:
        (pys "mods_titleInfo_title_mt:(" ++ pys "manfred heuberger" ++ pys ")^5") :=
  ⟨by decide,
    (query_parts_percent_roundtrip (pys "manfred heuberger") (by decide) _ (by decide)).1,
    (query_parts_percent_roundtrip (pys "manfred heuberger") (by decide) _ (by decide)).2⟩

set_option maxRecDepth 400000 in
/-- C8: for the input term `"manfred heuberger"`, the produced query contains
the title clause and the creator clause, each of which contains the
percent-encoded forms of both words `manfred` and `heuberger` (which the
encoding leaves verbatim, both being safe ASCII). -/
theorem build_search_query_manfred_heuberger :
    quote (pys "mods_titleInfo_title_mt:(manfred heuberger)^5") <:+:
        build_search_query (pys "manfred heuberger") ∧
    quote (pys "dc.creator:(manfred heuberger)^2") <:+:
        build_search_query (pys "manfred heuberger") ∧
    quote (pys "manfred") <:+: quote (pys "mods_titleInfo_title_mt:(manfred heuberger)^5") ∧
    quote (pys "heuberger") <:+: quote (pys "mods_titleInfo_title_mt:(manfred heuberger)^5") ∧
    quote (pys "manfred") <:+: quote (pys "dc.creator:(manfred heuberger)^2") ∧
    quote (pys "heuberger") <:+: quote (pys "dc.creator:(manfred heuberger)^2") := by
  decide

/-! ## The transport adapter of `src/dora_mcp/server.py` -/

/-- A JSON value, as far as the adapter inspects one: the parsed
`response.json()` of the upstream call and the JSON bodies the endpoints
build. -/
inductive Json where
  | null
  | bool (b : Bool)
  | num (n : Int)
  | str (s : PyStr)
  | arr (items : List Json)
  | obj (fields : List (PyStr × Json))

/-- An outbound HTTP GET as issued through `httpx.AsyncClient`: request URL,
query parameters, and the client timeout in seconds. -/
structure HttpRequest where
  url : PyStr
  params : List (PyStr × PyStr)
  timeout : Nat

/-- The outcome of one Python call: a normal return, or a raised exception
carrying `str(e)`. -/
abbrev PyResult (α : Type) := Except PyStr α

/-- The network, abstracted: what the upstream GET would return — the parsed
JSON body on success (`raise_for_status` passed), or a raised `httpx`
error. -/
abbrev Net := HttpRequest → PyResult Json

def DORA_BASE_URL : PyStr := pys "https://www.dora.lib4ri.ch/empa"

def DORA_SEARCH_ENDPOINT : PyStr := DORA_BASE_URL ++ pys "/islandora/search/json_cit_a"

/-- The single GET issued by `search_dora_publications`: URL
`f"{DORA_SEARCH_ENDPOINT}/{query}"`, params `search_string` and
`extension=false`, client timeout `30.0`. -/
def searchRequest (search_string : PyStr) : HttpRequest where
  url := DORA_SEARCH_ENDPOINT ++ pys "/" ++ build_search_query search_string
  params := [(pys "search_string", search_string), (pys "extension", pys "false")]
  timeout := 30

/-- `search_dora_publications` run against `net`: the Python outcome together
with the list of outbound GETs performed. Its `try` block logs and re-raises
every error, so failures propagate to the caller. -/
def search_dora_publications (net : Net) (search_string : PyStr) :
    PyResult Json × List HttpRequest :=
  (net (searchRequest search_string), [searchRequest search_string])

/-- Escaping inside Python `repr` of a string, reduced to the backslash and
the quote character. -/
def reprEscape (s : PyStr) : PyStr :=
  s.flatMap fun c => if c = 92 ∨ c = 39 then [92, c] else [c]

mutual

/-- Python `repr` of a parsed-JSON value, as the f-strings of `call_tool`
interpolate it (`json` parsing maps `null/true/false` to `None/True/False`);
the quote-selection and non-printable escaping details of `repr` are reduced
to single quotes with backslash escaping. -/
def pyRepr : Json → PyStr
  | .null => pys "None"
  | .bool true => pys "True"
  | .bool false => pys "False"
  | .num n => pys (toString n)
  | .str s => 39 :: (reprEscape s ++ [39])
  | .arr items => 91 :: (List.intercalate (pys ", ") (pyReprList items) ++ [93])
  | .obj kvs => 123 :: (List.intercalate (pys ", ") (pyReprObj kvs) ++ [125])

def pyReprList : List Json → List PyStr
  | [] => []
  | j :: js => pyRepr j :: pyReprList js

def pyReprObj : List (PyStr × Json) → List PyStr
  | [] => []
  | (k, v) :: kvs => (pyRepr (.str k) ++ pys ": " ++ pyRepr v) :: pyReprObj kvs

end

/-- `mcp.types.TextContent`, as far as `call_tool` populates it. -/
structure TextContent where
  type : PyStr
  text : PyStr

/-- Python f-string interpolation of a value that is either a string or
`None`. -/
def strOrNone : Option PyStr → PyStr
  | none => pys "None"
  | some s => s

/-- The `response_text` formatting of `call_tool`: a dict gets the
`Raw JSON response` framing, any other value is interpolated directly. -/
def format_results (search_string : PyStr) (results : Json) : PyStr :=
  match results with
  | .obj kvs => pys "Search results for \x27" ++ search_string ++
      pys "\x27:\n\nRaw JSON response:\n" ++ pyRepr (.obj kvs)
  | other => pys "Search results for \x27" ++ search_string ++ pys "\x27:\n" ++ pyRepr other

/-- `call_tool` from `src/dora_mcp/server.py`, run against `net`. `name` is
`none` when the dispatching endpoint passed Python `None`; `arguments` is
modelled by its `search_string` entry (`arguments.get("search_string")`,
`none` when absent). The unknown-tool and missing-argument `ValueError`s are
raised (`Except.error`); the `try` block around the search turns any
upstream failure into a normal `TextContent` answer. Returns the outcome
and the list of outbound GETs performed. -/
def call_tool (net : Net) (name : Option PyStr) (search_string_arg : Option PyStr) :
    PyResult (List TextContent) × List HttpRequest :=
  if name ≠ some (pys "search_publications") then
    (.error (pys "Unknown tool: " ++ strOrNone name), [])
  else
    match search_string_arg with
    | none => (.error (pys "search_string is required"), [])
    | some s =>
      if s = [] then (.error (pys "search_string is required"), [])
      else
        match search_dora_publications net s with
        | (.ok results, reqs) => (.ok [⟨pys "text", format_results s results⟩], reqs)
        | (.error e, reqs) => (.ok [⟨pys "text", pys "Error searching DORA: " ++ e⟩], reqs)

/-- An HTTP response from a Starlette endpoint: status code and JSON body. -/
structure HttpResponse where
  status : Nat
  body : Json

/-- `len(results) if isinstance(results, list) else 0` — the `total` of the
REST success envelope. -/
def resultsTotal : Json → Nat
  | .arr items => items.length
  | _ => 0

/-- `search_api_endpoint` (`/api/search`) on a POST whose JSON body has the
given `search_string` entry (`none` when the key is absent), run against
`net`. The catch-all `except` turns an upstream failure into a 500 with an
`error` field. -/
def search_api_endpoint (net : Net) (search_string : Option PyStr) :
    HttpResponse × List HttpRequest :=
  match search_string with
  | none => (⟨400, .obj [(pys "error", .str (pys "search_string is required"))]⟩, [])
  | some s =>
    if s = [] then
      (⟨400, .obj [(pys "error", .str (pys "search_string is required"))]⟩, [])
    else
      match search_dora_publications net s with
      | (.ok results, reqs) =>
        (⟨200, .obj [(pys "search_string", .str s), (pys "results", results),
          (pys "total", .num (resultsTotal results))]⟩, reqs)
      | (.error e, reqs) => (⟨500, .obj [(pys "error", .str e)]⟩, reqs)

/-- `connector_endpoint` (`/connector`): identical to `/api/search` except
for the wording of the missing-argument message. -/
def connector_endpoint (net : Net) (search_string : Option PyStr) :
    HttpResponse × List HttpRequest :=
  match search_string with
  | none => (⟨400, .obj [(pys "error", .str (pys "search_string parameter is required"))]⟩, [])
  | some s =>
    if s = [] then
      (⟨400, .obj [(pys "error", .str (pys "search_string parameter is required"))]⟩, [])
    else
      match search_dora_publications net s with
      | (.ok results, reqs) =>
        (⟨200, .obj [(pys "search_string", .str s), (pys "results", results),
          (pys "total", .num (resultsTotal results))]⟩, reqs)
      | (.error e, reqs) => (⟨500, .obj [(pys "error", .str e)]⟩, reqs)

/-- `mcp.types.Tool`, as far as `list_tools` populates it. -/
structure Tool where
  name : PyStr
  description : PyStr
  inputSchema : Json

/-- The single static tool descriptor returned by `list_tools`. -/
def search_publications_tool : Tool where
  name := pys "search_publications"
  description := pys "Search the DORA (Digital Object Repository for Academia) database for scientific publications. Searches across titles, abstracts, authors, and other metadata fields. Returns a list of publications matching the search criteria."
  inputSchema := .obj [
    (pys "type", .str (pys "object")),
    (pys "properties", .obj [
      (pys "search_string", .obj [
        (pys "type", .str (pys "string")),
        (pys "description", .str (pys "The search term to query. Can be an author name, title keyword, or any search term. Example: \x27manfred heuberger\x27"))])]),
    (pys "required", .arr [.str (pys "search_string")])]

/-- `list_tools` from `src/dora_mcp/server.py`: a constant list of one
descriptor — the same on every invocation, never mutated. -/
def list_tools : List Tool := [search_publications_tool]

/-- Dictionary lookup in a JSON object (`d.get(key)`); `none` when the value
is not an object or lacks the key. -/
def jsonGet (j : Json) (key : PyStr) : Option Json :=
  match j with
  | .obj kvs => List.lookup key kvs
  | _ => none

/-- The JSON rendering of a tool descriptor used by the HTTP endpoints. -/
def toolJson (t : Tool) : Json :=
  .obj [(pys "name", .str t.name), (pys "description", .str t.description),
        (pys "inputSchema", t.inputSchema)]

/-- The fields of a JSON-RPC POST body that `mcp_streamable_endpoint` reads:
`body.get("id")` (JSON `null` when absent, as Python `None` serialises to
`null`), `body.get("method")`, and inside `params` the entries `name` and
`arguments` (the latter by its `search_string` entry). -/
structure McpBody where
  id : Json
  method : Option PyStr
  paramsName : Option PyStr
  paramsSearchString : Option PyStr

/-- A JSON-RPC error envelope `{jsonrpc, id, error: {code, message}}`. -/
def jsonrpcError (id : Json) (code : Int) (message : PyStr) : Json :=
  .obj [(pys "jsonrpc", .str (pys "2.0")), (pys "id", id),
        (pys "error", .obj [(pys "code", .num code), (pys "message", .str message)])]

/-- The POST branch of `mcp_streamable_endpoint` (`/mcp`), run against `net`:
dispatches on `method`, wraps `call_tool` output in a JSON-RPC result
envelope, turns an exception raised by `call_tool` into a `-32603` JSON-RPC
error with status 500, and answers `-32601` with status 200 for any other
method. A total function: no input terminates the process. -/
def mcp_streamable_endpoint (net : Net) (body : McpBody) :
    HttpResponse × List HttpRequest :=
  if body.method = some (pys "tools/list") then
    (⟨200, .obj [(pys "jsonrpc", .str (pys "2.0")), (pys "id", body.id),
      (pys "result", .obj [(pys "tools", .arr (list_tools.map toolJson))])]⟩, [])
  else if body.method = some (pys "tools/call") then
    match call_tool net body.paramsName body.paramsSearchString with
    | (.ok content, reqs) =>
      (⟨200, .obj [(pys "jsonrpc", .str (pys "2.0")), (pys "id", body.id),
        (pys "result", .obj [(pys "content", .arr (content.map fun c =>
          .obj [(pys "type", .str c.type), (pys "text", .str c.text)]))])]⟩, reqs)
    | (.error e, reqs) => (⟨500, jsonrpcError body.id (-32603) e⟩, reqs)
  else if body.method = some (pys "initialize") then
    (⟨200, .obj [(pys "jsonrpc", .str (pys "2.0")), (pys "id", body.id),
      (pys "result", .obj [(pys "protocolVersion", .str (pys "2024-11-05")),
        (pys "capabilities", .obj [(pys "tools", .obj [])]),
        (pys "serverInfo", .obj [(pys "name", .str (pys "dora-mcp")),
          (pys "version", .str (pys "1.0.0"))])])]⟩, [])
  else
    (⟨200, jsonrpcError body.id (-32601)
      (pys "Method not found: " ++ strOrNone body.method)⟩, [])

/-! ## The legacy variant `dora_mcp/server.py` at the repository root -/

def legacy_DORA_BASE_URL : PyStr :=
  pys "https://www.dora.lib4ri.ch/empa/islandora/search/json_cit_a"

/-- The single GET issued by the legacy `DoraClient.search_publications`:
`quote(query, safe=":")` appended to the base URL, filter params `f[i]`, and
the client constructed once with `httpx.AsyncClient(timeout=30.0)`. -/
def DoraClient_search_request (query : PyStr) (filters : List PyStr) : HttpRequest where
  url := legacy_DORA_BASE_URL ++ pys "/" ++ quoteWith [58] query
  params := filters.enum.map fun p => (pys "f[" ++ pys (toString p.1) ++ pys "]", p.2)
  timeout := 30

/-- Legacy `DoraClient.search_publications` run against `net`: one GET, no
retry, errors logged and re-raised. -/
def DoraClient_search_publications (net : Net) (query : PyStr) (filters : List PyStr) :
    PyResult Json × List HttpRequest :=
  (net (DoraClient_search_request query filters), [DoraClient_search_request query filters])

/-- C3: a request whose required search term is absent or empty is rejected
before any network call — the tool handler raises
`search_string is required`, the REST endpoints answer 400 — and the list of
outbound GETs is empty. -/
theorem missing_search_string_rejected (net : Net) (arg : Option PyStr)
    (h : arg = none ∨ arg = some []) :
    call_tool net (some (pys "search_publications")) arg =
      (.error (pys "search_string is required"), []) ∧
    search_api_endpoint net arg =
      (⟨400, .obj [(pys "error", .str (pys "search_string is required"))]⟩, []) ∧
    connector_endpoint net arg =
      (⟨400, .obj [(pys "error", .str (pys "search_string parameter is required"))]⟩, []) := by
  rcases h with rfl | rfl <;>
    exact ⟨by simp [call_tool], by simp [search_api_endpoint], by simp [connector_endpoint]⟩

/-- Witness for C3 at a concrete request with the key absent. -/
theorem missing_search_string_rejected_witness :
    ((none : Option PyStr) = none ∨ (none : Option PyStr) = some []) ∧
    call_tool (fun _ => .ok .null) (some (pys "search_publications")) none =
      (.error (pys "search_string is required"), []) :=
  ⟨Or.inl rfl,
    (missing_search_string_rejected (fun _ => .ok .null) none (Or.inl rfl)).1⟩

/-- C4: when the single upstream GET raises, the tool handler catches the
exception and returns a normal text payload describing the error, and both
REST endpoints answer 500 with an `error` field carrying `str(e)`; the
failure is never propagated as an unhandled fault. -/
theorem upstream_failure_handled (net : Net) (s e : PyStr)
    (hs : s ≠ []) (hnet : net (searchRequest s) = .error e) :
    call_tool net (some (pys "search_publications")) (some s) =
      (.ok [⟨pys "text", pys "Error searching DORA: " ++ e⟩], [searchRequest s]) ∧
    search_api_endpoint net (some s) =
      (⟨500, .obj [(pys "error", .str e)]⟩, [searchRequest s]) ∧
    connector_endpoint net (some s) =
      (⟨500, .obj [(pys "error", .str e)]⟩, [searchRequest s]) := by
  refine ⟨?_, ?_, ?_⟩ <;>
    simp [call_tool, search_api_endpoint, connector_endpoint,
      search_dora_publications, hs, hnet]

/-- Witness for C4 at a concrete simulated connection error. -/
theorem upstream_failure_handled_witness :
    pys "test" ≠ [] ∧
    call_tool (fun _ => .error (pys "Connection failed"))
        (some (pys "search_publications")) (some (pys "test")) =
      (.ok [⟨pys "text", pys "Error searching DORA: " ++ pys "Connection failed"⟩],
        [searchRequest (pys "test")]) :=
  ⟨by decide,
    (upstream_failure_handled (fun _ => .error (pys "Connection failed"))
      (pys "test") (pys "Connection failed") (by decide) rfl).1⟩

set_option maxRecDepth 40000 in
/-- C5: `list_tools` returns exactly one static descriptor, named
`search_publications`, with a non-empty description and an input schema
whose `required` list is exactly `["search_string"]`; being a constant
definition, it is the same on every invocation and nothing mutates it. -/
theorem list_tools_single_static_descriptor :
    list_tools = [search_publications_tool] ∧
    search_publications_tool.name = pys "search_publications" ∧
    search_publications_tool.description ≠ [] ∧
    jsonGet search_publications_tool.inputSchema (pys "required") =
      some (.arr [.str (pys "search_string")]) :=
  ⟨rfl, rfl, by decide, rfl⟩

/-- C6: every accepted search performs exactly one outbound GET — on success
and on failure alike — against the fixed search endpoint, with the client
timeout of 30 seconds, and never issues a second (retry) request; the legacy
`DoraClient` likewise uses a 30-second timeout for its single GET. -/
theorem exactly_one_get_with_30s_timeout (net : Net) (s : PyStr) (hs : s ≠ []) :
    (search_dora_publications net s).2 = [searchRequest s] ∧
    (call_tool net (some (pys "search_publications")) (some s)).2 = [searchRequest s] ∧
    (search_api_endpoint net (some s)).2 = [searchRequest s] ∧
    (connector_endpoint net (some s)).2 = [searchRequest s] ∧
    (searchRequest s).timeout = 30 ∧
    (searchRequest s).url = DORA_SEARCH_ENDPOINT ++ pys "/" ++ build_search_query s ∧
    (DoraClient_search_publications net s []).2 = [DoraClient_search_request s []] ∧
    (DoraClient_search_request s []).timeout = 30 := by
  refine ⟨rfl, ?_, ?_, ?_, rfl, rfl, rfl, rfl⟩ <;>
    cases hnet : net (searchRequest s) <;>
      simp [call_tool, search_api_endpoint, connector_endpoint,
        search_dora_publications, hs, hnet]

/-- Witness for C6 at a concrete accepted request. -/
theorem exactly_one_get_with_30s_timeout_witness :
    pys "test" ≠ [] ∧
    (call_tool (fun _ => .ok .null) (some (pys "search_publications"))
      (some (pys "test"))).2 = [searchRequest (pys "test")] ∧
    (searchRequest (pys "test")).timeout = 30 :=
  ⟨by decide,
    (exactly_one_get_with_30s_timeout (fun _ => .ok .null) (pys "test") (by decide)).2.1,
    (exactly_one_get_with_30s_timeout (fun _ => .ok .null) (pys "test") (by decide)).2.2.2.2.1⟩

/-- C7: every failure path of the tool dispatch returns a response describing
the problem instead of an unhandled exception — an unknown tool name and a
missing required input surface through `/mcp` as a JSON-RPC `-32603` error
carrying the `ValueError` message, and an upstream failure surfaces as a
normal 200 tool answer whose text describes the error; the endpoint is a
total function, so no failure terminates the process. -/
theorem failures_become_responses (net : Net) (body : McpBody)
    (hm : body.method = some (pys "tools/call")) :
    (∀ nm, body.paramsName = some nm → nm ≠ pys "search_publications" →
      mcp_streamable_endpoint net body =
        (⟨500, jsonrpcError body.id (-32603) (pys "Unknown tool: " ++ nm)⟩, [])) ∧
    (body.paramsName = some (pys "search_publications") →
      (body.paramsSearchString = none ∨ body.paramsSearchString = some []) →
      mcp_streamable_endpoint net body =
        (⟨500, jsonrpcError body.id (-32603) (pys "search_string is required")⟩, [])) ∧
    (∀ s e, body.paramsName = some (pys "search_publications") →
      body.paramsSearchString = some s → s ≠ [] → net (searchRequest s) = .error e →
      mcp_streamable_endpoint net body =
        (⟨200, .obj [(pys "jsonrpc", .str (pys "2.0")), (pys "id", body.id),
          (pys "result", .obj [(pys "content", .arr [.obj
            [(pys "type", .str (pys "text")),
             (pys "text", .str (pys "Error searching DORA: " ++ e))]])])]⟩,
          [searchRequest s])) := by
  have d1 : pys "tools/call" ≠ pys "tools/list" := by decide
  refine ⟨?_, ?_, ?_⟩
  · intro nm hnm hne
    simp [mcp_streamable_endpoint, hm, d1, call_tool, hnm, hne, strOrNone]
  · intro hname harg
    rcases harg with h | h <;>
      simp [mcp_streamable_endpoint, hm, d1, call_tool, hname, h]
  · intro s e hname harg hs hnet
    simp [mcp_streamable_endpoint, hm, d1, call_tool, hname, harg, hs,
      search_dora_publications, hnet]

/-- Witness for C7: concrete unknown-tool request through `/mcp`. -/
theorem failures_become_responses_witness :
    mcp_streamable_endpoint (fun _ => .error (pys "Connection failed"))
      ⟨.null, some (pys "tools/call"), some (pys "nonexistent_tool"), none⟩ =
      (⟨500, jsonrpcError .null (-32603)
        (pys "Unknown tool: " ++ pys "nonexistent_tool")⟩, []) :=
  (failures_become_responses (fun _ => .error (pys "Connection failed"))
    ⟨.null, some (pys "tools/call"), some (pys "nonexistent_tool"), none⟩ rfl).1
    (pys "nonexistent_tool") rfl (by decide)

/-- C9: a JSON-RPC POST to `/mcp` whose method is none of `tools/list`,
`tools/call` and `initialize` gets an HTTP 200 JSON-RPC envelope with no
result but an error object with code `-32601` and a `Method not found`
message, echoing back the request id. -/
theorem unknown_method_not_found (net : Net) (body : McpBody)
    (h1 : body.method ≠ some (pys "tools/list"))
    (h2 : body.method ≠ some (pys "tools/call"))
    (h3 : body.method ≠ some (pys "initialize")) :
    mcp_streamable_endpoint net body =
      (⟨200, jsonrpcError body.id (-32601)
        (pys "Method not found: " ++ strOrNone body.method)⟩, []) := by
  simp [mcp_streamable_endpoint, h1, h2, h3]

/-- Witness for C9 at a concrete unsupported method. -/
theorem unknown_method_not_found_witness :
    mcp_streamable_endpoint (fun _ => .ok .null)
      ⟨.num 7, some (pys "resources/list"), none, none⟩ =
      (⟨200, jsonrpcError (.num 7) (-32601)
        (pys "Method not found: " ++ strOrNone (some (pys "resources/list")))⟩, []) :=
  unknown_method_not_found (fun _ => .ok .null)
    ⟨.num 7, some (pys "resources/list"), none, none⟩ (by decide) (by decide) (by decide)

/-- C10: a successful REST search through `/api/search` or `/connector`
answers the envelope `{search_string, results, total}` with `results` the
upstream JSON verbatim, where `total` is the length of `results` exactly
when the upstream value is a JSON array, and is 0 whenever the upstream
returns a JSON object, however many publications it holds. -/
theorem rest_total_counts_only_arrays (net : Net) (s : PyStr) (results : Json)
    (hs : s ≠ []) (hnet : net (searchRequest s) = .ok results) :
    (search_api_endpoint net (some s)).1 =
      ⟨200, .obj [(pys "search_string", .str s), (pys "results", results),
        (pys "total", .num (resultsTotal results))]⟩ ∧
    (connector_endpoint net (some s)).1 =
      ⟨200, .obj [(pys "search_string", .str s), (pys "results", results),
        (pys "total", .num (resultsTotal results))]⟩ ∧
    (∀ items, results = .arr items → resultsTotal results = items.length) ∧
    (∀ kvs, results = .obj kvs → resultsTotal results = 0) := by
  refine ⟨?_, ?_, ?_, ?_⟩
  · simp [search_api_endpoint, search_dora_publications, hs, hnet]
  · simp [connector_endpoint, search_dora_publications, hs, hnet]
  · rintro items rfl; rfl
  · rintro kvs rfl; rfl

/-- Witness for C10 at a concrete object-shaped upstream response. -/
theorem rest_total_counts_only_arrays_witness :
    (search_api_endpoint (fun _ => .ok (.obj [(pys "a", .null)])) (some (pys "test"))).1 =
      ⟨200, .obj [(pys "search_string", .str (pys "test")),
        (pys "results", .obj [(pys "a", .null)]), (pys "total", .num 0)]⟩ ∧
    resultsTotal (.obj [(pys "a", .null)]) = 0 :=
  ⟨(rest_total_counts_only_arrays (fun _ => .ok (.obj [(pys "a", .null)]))
      (pys "test") (.obj [(pys "a", .null)]) (by decide) rfl).1,
    (rest_total_counts_only_arrays (fun _ => .ok (.obj [(pys "a", .null)]))
      (pys "test") (.obj [(pys "a", .null)]) (by decide) rfl).2.2.2 _ rfl⟩

end DoraMCP
